import Mathlib

/-!
Shallow embedding of zds/mp/api/views.py: the two DRF class-based views
PrivateTopicListAPI and PrivateTopicDetailAPI for private topics
(direct-message threads), together with models of the framework pieces
(dispatch, generic verbs, key constructors) and of the external
collaborators that the file delegates to.

Definitions carrying a doc comment starting with Modelled from the spec
embed code of this repository or of its frameworks that is not under src;
all other definitions are translated directly from src/zds/mp/api/views.py.
-/

namespace ZdsMp

/-- HTTP request methods, as compared by the views via request.method. -/
inductive Method where
  | GET
  | POST
  | PUT
  | DELETE
  | PATCH
  | HEAD
  | OPTIONS
  deriving DecidableEq, Repr

/-- An authenticated user; request.user.id is the Django user primary key. -/
structure User where
  id : Nat
  deriving DecidableEq, Repr

/-- Modelled from the spec: the PrivateTopic model (zds/mp/models.py, not
under src). A private topic has a primary key, an author and a list of
participants; only the fields the views touch are embedded. -/
structure PrivateTopic where
  pk : Nat
  author : Nat
  participants : List Nat
  title : String
  deriving DecidableEq, Repr

/-- An incoming HTTP request as seen by the views: its method, its
(possibly absent, when unauthenticated) user, and the pk values of its
form data, read by request.data.getlist applied to pk. -/
structure Request where
  method : Method
  user : Option User
  dataPks : List Nat
  deriving DecidableEq, Repr

/-- The ORM database state: the table of all private topics. -/
structure Database where
  topics : List PrivateTopic
  deriving DecidableEq, Repr

/-- An HTTP response: a status code and the topics serialized in its body
(empty when the response carries no payload). -/
structure Response where
  status : Nat
  body : List PrivateTopic
  deriving DecidableEq, Repr

/-- Modelled from the spec: membership of a user in a private topic
(zds/mp/models.py, not under src): the user is the author of the topic or
one of its participants. -/
def isParticipantOf (uid : Nat) (t : PrivateTopic) : Bool :=
  t.author == uid || t.participants.contains uid

/-- Modelled from the spec: the manager method
PrivateTopic.objects.get_private_topics_of_user (zds/mp/models.py, not
under src): the private topics of the given user. -/
def get_private_topics_of_user (db : Database) (uid : Nat) : List PrivateTopic :=
  db.topics.filter (fun t => isParticipantOf uid t)

/-- Modelled from the spec: the manager method
PrivateTopic.objects.get_private_topics_selected (zds/mp/models.py, not
under src): the private topics of the given user whose pk appears in the
given list. -/
def get_private_topics_selected (db : Database) (uid : Nat) (pks : List Nat) :
    List PrivateTopic :=
  db.topics.filter (fun t => pks.contains t.pk && isParticipantOf uid t)

/-- The serializer classes the views select between. -/
inductive Serializer where
  | PrivateTopicSerializer
  | PrivateTopicUpdateSerializer
  | PrivateTopicCreateSerializer
  deriving DecidableEq, Repr

/-- The permission classes named by the views: IsAuthenticated from the
framework and IsParticipant from zds/mp/api/permissions.py. -/
inductive Permission where
  | isAuthenticated
  | isParticipant
  deriving DecidableEq, Repr

/-- Modelled from the spec: the request-level permission check run by the
framework before a handler body. IsAuthenticated holds when the request
carries a user; IsParticipant makes no request-level restriction, its
decision being object-level. -/
def has_permission (p : Permission) (req : Request) : Bool :=
  match p with
  | Permission.isAuthenticated => req.user.isSome
  | Permission.isParticipant => true

/-- Modelled from the spec: the object-level permission check.
IsParticipant (zds/mp/api/permissions.py, not under src) grants access to
a private topic exactly when the requesting user participates in it. -/
def has_object_permission (p : Permission) (req : Request) (t : PrivateTopic) : Bool :=
  match p with
  | Permission.isAuthenticated => req.user.isSome
  | Permission.isParticipant =>
      match req.user with
      | none => false
      | some u => isParticipantOf u.id t

/-- From the source: permission_classes of PrivateTopicListAPI. -/
def PrivateTopicListAPI.permission_classes : List Permission :=
  [Permission.isAuthenticated]

/-- From the source: permission_classes of PrivateTopicDetailAPI. -/
def PrivateTopicDetailAPI.permission_classes : List Permission :=
  [Permission.isAuthenticated, Permission.isParticipant]

/-- Modelled from the spec: the framework view dispatch. The permission
classes are all checked before the handler body runs; on failure the
framework answers 401 Not authenticated for an unauthenticated request and
403 for an authenticated one, and the handler body never runs, so the
database is unchanged. On success the handler runs with the id of
request.user. -/
def dispatch (perms : List Permission)
    (handler : Database → Request → Nat → Database × Response)
    (db : Database) (req : Request) : Database × Response :=
  if perms.all (fun p => has_permission p req) then
    handler db req ((req.user.map User.id).getD 0)
  else
    (db, ⟨if req.user.isSome then 403 else 401, []⟩)

/-- From the source: PrivateTopicListAPI.get_serializer_class returns
PrivateTopicSerializer when request.method is GET, and
PrivateTopicCreateSerializer when it is POST; any other method falls
through the if-elif chain and returns None. -/
def PrivateTopicListAPI.get_serializer_class (m : Method) : Option Serializer :=
  if m = Method.GET then some Serializer.PrivateTopicSerializer
  else if m = Method.POST then some Serializer.PrivateTopicCreateSerializer
  else none

/-- From the source: PrivateTopicDetailAPI.get_serializer_class returns
PrivateTopicSerializer when request.method is GET, and
PrivateTopicUpdateSerializer when it is PUT; any other method falls
through the if-elif chain and returns None. -/
def PrivateTopicDetailAPI.get_serializer_class (m : Method) : Option Serializer :=
  if m = Method.GET then some Serializer.PrivateTopicSerializer
  else if m = Method.PUT then some Serializer.PrivateTopicUpdateSerializer
  else none

/-- From the source: PrivateTopicListAPI.get_current_user returns
self.request.user. -/
def PrivateTopicListAPI.get_current_user (req : Request) : Option User :=
  req.user

/-- From the source: PrivateTopicDetailAPI.get_current_user returns
self.request.user. -/
def PrivateTopicDetailAPI.get_current_user (req : Request) : Option User :=
  req.user

/-- From the source: PrivateTopicListAPI.get_queryset. On a DELETE request
it reads the pk list of the request data and returns
get_private_topics_selected of the requesting user and that list; on any
other method it returns get_private_topics_of_user of the requesting
user. -/
def PrivateTopicListAPI.get_queryset (db : Database) (req : Request) (uid : Nat) :
    List PrivateTopic :=
  if req.method = Method.DELETE then
    get_private_topics_selected db uid req.dataPks
  else
    get_private_topics_of_user db uid

/-- From the source: the queryset attribute of PrivateTopicDetailAPI is
PrivateTopic.objects.all(), the unfiltered table. -/
def PrivateTopicDetailAPI.queryset (db : Database) : List PrivateTopic :=
  db.topics

/-- Modelled from the spec: LeavePrivateTopic.perform_destroy
(zds/mp/commons.py, not under src), the collaborator holding the leave or
delete decision for one topic; the spec describes the DELETE operations as
destroying the topic, so it is embedded as removing the given topic from
the table. -/
def perform_destroy (db : Database) (t : PrivateTopic) : Database :=
  ⟨db.topics.filter (fun s => s.pk != t.pk)⟩

/-- From the source: the body of PrivateTopicListAPI.delete. It iterates
over self.get_queryset() calling self.perform_destroy on each topic (the
collaborator pd, inherited from LeavePrivateTopic), then returns
Response(status=HTTP_204_NO_CONTENT); the response has no body. -/
def PrivateTopicListAPI.delete (pd : Database → PrivateTopic → Database)
    (db : Database) (req : Request) (uid : Nat) : Database × Response :=
  ((PrivateTopicListAPI.get_queryset db req uid).foldl pd db, ⟨204, []⟩)

/-- The list endpoint DELETE operation as routed by the framework:
permission check, then the delete handler body with the inherited
perform_destroy. -/
def PrivateTopicListAPI.handle_delete (db : Database) (req : Request) :
    Database × Response :=
  dispatch PrivateTopicListAPI.permission_classes
    (PrivateTopicListAPI.delete perform_destroy) db req

/-- Modelled from the spec: the framework get_object used by the detail
generic verbs: look the pk up in the queryset of the view, answering 404
when no row matches, then run the object-level permission checks,
answering 403 (401 when unauthenticated) when one denies. -/
def PrivateTopicDetailAPI.get_object (db : Database) (req : Request) (pk : Nat) :
    Except Nat PrivateTopic :=
  match (PrivateTopicDetailAPI.queryset db).find? (fun t => t.pk == pk) with
  | none => Except.error 404
  | some t =>
      if PrivateTopicDetailAPI.permission_classes.all
          (fun p => has_object_permission p req t) then
        Except.ok t
      else
        Except.error (if req.user.isSome then 403 else 401)

/-- The cache key bits provided by the framework module
rest_framework_extensions.key_constructor.bits; the file only names them,
their evaluation living in the framework. -/
inductive KeyBit where
  | pagination
  | queryParams (params : List String)
  | listSqlQuery
  | uniqueViewId
  | format
  | language
  | retrieveSqlQuery
  deriving DecidableEq, Repr

/-- From the source: PagingPrivateTopicListKeyConstructor subclasses the
framework DefaultKeyConstructor and declares the bits pagination,
QueryParamsKeyBit on search and ordering, ListSqlQueryKeyBit and
UniqueViewIdKeyBit. -/
def PagingPrivateTopicListKeyConstructor : List KeyBit :=
  [KeyBit.pagination, KeyBit.queryParams ["search", "ordering"],
   KeyBit.listSqlQuery, KeyBit.uniqueViewId]

/-- From the source: DetailKeyConstructor subclasses the framework
DefaultKeyConstructor and declares the bits FormatKeyBit, LanguageKeyBit,
RetrieveSqlQueryKeyBit and UniqueViewIdKeyBit. -/
def DetailKeyConstructor : List KeyBit :=
  [KeyBit.format, KeyBit.language, KeyBit.retrieveSqlQuery, KeyBit.uniqueViewId]

/-- From the source: list_key_func, the single
PagingPrivateTopicListKeyConstructor instance of PrivateTopicListAPI. -/
def PrivateTopicListAPI.list_key_func : List KeyBit :=
  PagingPrivateTopicListKeyConstructor

/-- From the source: obj_key_func, the single DetailKeyConstructor
instance of PrivateTopicDetailAPI. -/
def PrivateTopicDetailAPI.obj_key_func : List KeyBit :=
  DetailKeyConstructor

/-- Modelled from the spec: the framework DefaultKeyConstructor builds the
key from the values of the declared bits, each value computed by the
framework (the environment env); the file under analysis contributes only
the choice of bits. -/
def constructKey (env : KeyBit → String) (bs : List KeyBit) : List String :=
  bs.map env

/-- The two view decorators applied in the file: etag and cache_response,
each holding the key constructor it was given. -/
inductive Decorator where
  | etagDec (key : List KeyBit)
  | cacheResponse (key : List KeyBit)
  deriving DecidableEq, Repr

/-- From the source: the decorators on each handler of
PrivateTopicListAPI. Only get is decorated, with etag(list_key_func) and
cache_response(key_func=list_key_func); post and delete carry none. -/
def PrivateTopicListAPI.decorators (m : Method) : List Decorator :=
  if m = Method.GET then
    [Decorator.etagDec PrivateTopicListAPI.list_key_func,
     Decorator.cacheResponse PrivateTopicListAPI.list_key_func]
  else []

/-- From the source: the decorators on each handler of
PrivateTopicDetailAPI. Only get is decorated, with etag(obj_key_func) and
cache_response(key_func=obj_key_func); put and delete carry none. -/
def PrivateTopicDetailAPI.decorators (m : Method) : List Decorator :=
  if m = Method.GET then
    [Decorator.etagDec PrivateTopicDetailAPI.obj_key_func,
     Decorator.cacheResponse PrivateTopicDetailAPI.obj_key_func]
  else []

/-- The key constructor handed to the first etag decorator of a handler,
when there is one. -/
def etagKeyOf : List Decorator → Option (List KeyBit)
  | [] => none
  | Decorator.etagDec k :: _ => some k
  | Decorator.cacheResponse _ :: ds => etagKeyOf ds

/-- The key constructor handed to the first cache_response decorator of a
handler, when there is one. -/
def cacheKeyOf : List Decorator → Option (List KeyBit)
  | [] => none
  | Decorator.cacheResponse k :: _ => some k
  | Decorator.etagDec _ :: ds => cacheKeyOf ds

/-- The filter backends named by the list view, both from the framework
filters module. -/
inductive FilterBackend where
  | SearchFilter
  | OrderingFilter
  deriving DecidableEq, Repr

/-- From the source: filter_backends of PrivateTopicListAPI. -/
def PrivateTopicListAPI.filter_backends : List FilterBackend :=
  [FilterBackend.SearchFilter, FilterBackend.OrderingFilter]

/-- From the source: search_fields of PrivateTopicListAPI. -/
def PrivateTopicListAPI.search_fields : List String :=
  ["title"]

/-- From the source: ordering_fields of PrivateTopicListAPI. -/
def PrivateTopicListAPI.ordering_fields : List String :=
  ["pubdate", "last_message", "title"]

/-- The configured fields each framework backend reads from the view:
SearchFilter reads search_fields, OrderingFilter reads ordering_fields. -/
def PrivateTopicListAPI.fieldsFor : FilterBackend → List String
  | FilterBackend.SearchFilter => PrivateTopicListAPI.search_fields
  | FilterBackend.OrderingFilter => PrivateTopicListAPI.ordering_fields

/-- Modelled from the spec: the framework filtering and pagination
machinery, abstract in this embedding: each backend maps a queryset to a
queryset given the fields configured on the view and the request, and the
paginator cuts the page for the request. -/
structure Fw where
  filterQueryset : FilterBackend → List String → Request → List PrivateTopic → List PrivateTopic
  paginate : Request → List PrivateTopic → List PrivateTopic

/-- Modelled from the spec: the framework generic list verb
(ListModelMixin.list): it applies each configured filter backend in order
to the queryset of the view, paginates the result, and answers 200 with
the page as body. -/
def generic_list (fw : Fw) (backends : List FilterBackend)
    (fields : FilterBackend → List String) (req : Request)
    (qs : List PrivateTopic) : Response :=
  ⟨200, fw.paginate req
    (backends.foldl (fun acc b => fw.filterQueryset b (fields b) req acc) qs)⟩

/-- From the source: the body of PrivateTopicListAPI.get is
return self.list(request, args, kwargs): the generic list verb on the
queryset of the view with the configured backends; the database is not
written. -/
def PrivateTopicListAPI.get (fw : Fw) (db : Database) (req : Request) (uid : Nat) :
    Database × Response :=
  (db, generic_list fw PrivateTopicListAPI.filter_backends
    PrivateTopicListAPI.fieldsFor req (PrivateTopicListAPI.get_queryset db req uid))

/-- The generic framework verbs a handler can pass through to. -/
inductive GenericVerb where
  | list
  | create
  | retrieve
  | update
  | destroy
  deriving DecidableEq, Repr

/-- The shape of a handler body in the file: either the single statement
return self.verb(request, args, kwargs), or the bulk-destroy loop of
PrivateTopicListAPI.delete (a for loop over get_queryset calling
perform_destroy, then a direct 204 response). -/
inductive HandlerBody where
  | passThrough (v : GenericVerb)
  | bulkDestroyLoop
  deriving DecidableEq, Repr

/-- Whether a handler body is a direct pass-through to a generic verb. -/
def HandlerBody.isPassThrough : HandlerBody → Bool
  | HandlerBody.passThrough _ => true
  | HandlerBody.bulkDestroyLoop => false

/-- From the source: the handler bodies of PrivateTopicListAPI. get is
return self.list(...), post is return self.create(...), and delete is the
bulk-destroy loop; no other method has a handler. -/
def PrivateTopicListAPI.handlerBody : Method → Option HandlerBody
  | Method.GET => some (HandlerBody.passThrough GenericVerb.list)
  | Method.POST => some (HandlerBody.passThrough GenericVerb.create)
  | Method.DELETE => some HandlerBody.bulkDestroyLoop
  | _ => none

/-- From the source: the handler bodies of PrivateTopicDetailAPI. get is
return self.retrieve(...), put is return self.update(...), delete is
return self.destroy(...); no other method has a handler. -/
def PrivateTopicDetailAPI.handlerBody : Method → Option HandlerBody
  | Method.GET => some (HandlerBody.passThrough GenericVerb.retrieve)
  | Method.PUT => some (HandlerBody.passThrough GenericVerb.update)
  | Method.DELETE => some (HandlerBody.passThrough GenericVerb.destroy)
  | _ => none

/-- C1, counterexample: the DELETE handler of the list endpoint is not a
direct pass-through to a generic verb: its body is the bulk-destroy loop,
so the claim that every one of the six operations returns exactly the
result of a generic verb call fails at the list DELETE operation. -/
theorem bulk_delete_not_passThrough_cex :
    (PrivateTopicListAPI.handlerBody Method.DELETE).map HandlerBody.isPassThrough =
      some false ∧
    PrivateTopicListAPI.handlerBody Method.DELETE = some HandlerBody.bulkDestroyLoop := by
  decide

/-- C1, amended: five of the six operations are direct pass-throughs to
generic verbs (list GET to list, list POST to create, detail GET to
retrieve, detail PUT to update, detail DELETE to destroy); the list
DELETE handler instead loops over get_queryset calling perform_destroy on
each topic and returns a 204 response itself. -/
theorem handlers_passThrough_except_bulk_delete :
    PrivateTopicListAPI.handlerBody Method.GET =
      some (HandlerBody.passThrough GenericVerb.list) ∧
    PrivateTopicListAPI.handlerBody Method.POST =
      some (HandlerBody.passThrough GenericVerb.create) ∧
    PrivateTopicDetailAPI.handlerBody Method.GET =
      some (HandlerBody.passThrough GenericVerb.retrieve) ∧
    PrivateTopicDetailAPI.handlerBody Method.PUT =
      some (HandlerBody.passThrough GenericVerb.update) ∧
    PrivateTopicDetailAPI.handlerBody Method.DELETE =
      some (HandlerBody.passThrough GenericVerb.destroy) ∧
    PrivateTopicListAPI.handlerBody Method.DELETE = some HandlerBody.bulkDestroyLoop ∧
    (∀ pd db req uid, PrivateTopicListAPI.delete pd db req uid =
      ((PrivateTopicListAPI.get_queryset db req uid).foldl pd db,
        ⟨204, []⟩)) := by
  exact ⟨rfl, rfl, rfl, rfl, rfl, rfl, fun pd db req uid => rfl⟩

/-- C2, counterexample: the queryset of the detail view is not restricted
to the private topics of the authenticated user: on a database holding
one topic of user 5, the detail queryset seen by a request of user 2
still holds that topic, while get_private_topics_of_user for user 2 is
empty. -/
theorem detail_queryset_unfiltered_cex :
    PrivateTopicDetailAPI.queryset ⟨[⟨1, 5, [], "t"⟩]⟩ = [⟨1, 5, [], "t"⟩] ∧
    get_private_topics_of_user ⟨[⟨1, 5, [], "t"⟩]⟩ 2 = [] ∧
    PrivateTopicDetailAPI.queryset ⟨[⟨1, 5, [], "t"⟩]⟩ ≠
      get_private_topics_of_user ⟨[⟨1, 5, [], "t"⟩]⟩ 2 := by
  decide

/-- C2, amended: the list view operations work through filtered querysets
(get_private_topics_selected of the pk list for DELETE,
get_private_topics_of_user for every other method); the detail view
queryset is the unfiltered table, access of non-participants being denied
by the IsParticipant object permission instead. -/
theorem querysets_amended :
    (∀ db uid u pks,
      PrivateTopicListAPI.get_queryset db ⟨Method.DELETE, u, pks⟩ uid =
        get_private_topics_selected db uid pks) ∧
    (∀ db uid u pks,
      PrivateTopicListAPI.get_queryset db ⟨Method.GET, u, pks⟩ uid =
        get_private_topics_of_user db uid) ∧
    (∀ db uid u pks,
      PrivateTopicListAPI.get_queryset db ⟨Method.POST, u, pks⟩ uid =
        get_private_topics_of_user db uid) ∧
    (∀ db, PrivateTopicDetailAPI.queryset db = db.topics) ∧
    (∀ m pks t,
      has_object_permission Permission.isParticipant ⟨m, none, pks⟩ t = false) ∧
    (∀ m u pks t,
      has_object_permission Permission.isParticipant ⟨m, some u, pks⟩ t =
        isParticipantOf u.id t) := by
  exact ⟨fun db uid u pks => rfl, fun db uid u pks => rfl, fun db uid u pks => rfl,
    fun db => rfl, fun m pks t => rfl, fun m u pks t => rfl⟩

/-- C3: IsAuthenticated is among the permission classes of both views,
and for every request without a user, the dispatch of either view answers
401 with an empty body and leaves the database unchanged, whatever the
handler, the method and the form data: no handler body runs and no
private topic is created, modified or destroyed. -/
theorem unauthenticated_requests_rejected :
    Permission.isAuthenticated ∈ PrivateTopicListAPI.permission_classes ∧
    Permission.isAuthenticated ∈ PrivateTopicDetailAPI.permission_classes ∧
    (∀ handler db m pks,
      dispatch PrivateTopicListAPI.permission_classes handler db ⟨m, none, pks⟩ =
        (db, ⟨401, []⟩)) ∧
    (∀ handler db m pks,
      dispatch PrivateTopicDetailAPI.permission_classes handler db ⟨m, none, pks⟩ =
        (db, ⟨401, []⟩)) := by
  exact ⟨List.mem_singleton.mpr rfl, List.mem_cons_self _ _,
    fun handler db m pks => rfl, fun handler db m pks => rfl⟩

/-- C4: the key construction of both key constructors is delegated to the
framework: the key is the list of the framework-computed values of the
declared bits, so two framework bit evaluations agreeing on the declared
bits give the same key — the file contributes only the choice of bits,
no key-construction logic of its own. -/
theorem key_construction_delegated (env env2 : KeyBit → String)
    (h1 : ∀ b ∈ PagingPrivateTopicListKeyConstructor, env b = env2 b)
    (h2 : ∀ b ∈ DetailKeyConstructor, env b = env2 b) :
    constructKey env PagingPrivateTopicListKeyConstructor =
      constructKey env2 PagingPrivateTopicListKeyConstructor ∧
    constructKey env DetailKeyConstructor =
      constructKey env2 DetailKeyConstructor := by
  exact ⟨List.map_congr_left h1, List.map_congr_left h2⟩

/-- Witness for C4 at a concrete pair of environments. -/
theorem key_construction_delegated_witness :
    constructKey (fun _ => "x") PagingPrivateTopicListKeyConstructor =
      constructKey (fun _ => String.append "x" "") PagingPrivateTopicListKeyConstructor ∧
    constructKey (fun _ => "x") DetailKeyConstructor =
      constructKey (fun _ => String.append "x" "") DetailKeyConstructor :=
  key_construction_delegated (fun _ => "x") (fun _ => String.append "x" "")
    (fun _ _ => rfl) (fun _ _ => rfl)

/-- C5: the views contribute configuration and get_current_user only:
get_current_user of both views returns request.user; the detail view
names IsAuthenticated and the external IsParticipant as its permission
classes; and the database outcome of the bulk delete is exactly the fold
of the external perform_destroy collaborator over the queryset, whatever
that collaborator decides. -/
theorem business_logic_in_collaborators :
    (∀ req, PrivateTopicListAPI.get_current_user req = req.user) ∧
    (∀ req, PrivateTopicDetailAPI.get_current_user req = req.user) ∧
    PrivateTopicDetailAPI.permission_classes =
      [Permission.isAuthenticated, Permission.isParticipant] ∧
    (∀ pd db req uid, (PrivateTopicListAPI.delete pd db req uid).1 =
      (PrivateTopicListAPI.get_queryset db req uid).foldl pd db) := by
  exact ⟨fun req => rfl, fun req => rfl, rfl, fun pd db req uid => rfl⟩

/-- C6: the list view configures SearchFilter with the single search
field title and OrderingFilter with the ordering fields pubdate,
last_message and title, and its GET handler answers exactly the framework
pipeline — the two backends applied in order with those configured
fields, then the framework paginator — on the queryset of the view,
performing no filtering, ordering or pagination of its own. -/
theorem list_search_ordering_pagination_delegated :
    PrivateTopicListAPI.filter_backends =
      [FilterBackend.SearchFilter, FilterBackend.OrderingFilter] ∧
    PrivateTopicListAPI.search_fields = ["title"] ∧
    PrivateTopicListAPI.ordering_fields = ["pubdate", "last_message", "title"] ∧
    (∀ fw db req uid, PrivateTopicListAPI.get fw db req uid =
      (db, ⟨200, fw.paginate req
        (fw.filterQueryset FilterBackend.OrderingFilter
          ["pubdate", "last_message", "title"] req
          (fw.filterQueryset FilterBackend.SearchFilter ["title"] req
            (PrivateTopicListAPI.get_queryset db req uid)))⟩)) ∧
    PrivateTopicListAPI.handlerBody Method.GET =
      some (HandlerBody.passThrough GenericVerb.list) := by
  exact ⟨rfl, rfl, rfl, fun fw db req uid => rfl, rfl⟩

/-- C7: in each view exactly the GET handler carries decorators, namely
one etag and one cache_response decorator, both given the same single key
constructor instance of the view (list_key_func, obj_key_func), so under
any framework bit evaluation the key computed for the ETag equals the key
computed for the cache entry. -/
theorem get_etag_cache_same_key :
    etagKeyOf (PrivateTopicListAPI.decorators Method.GET) =
      some PrivateTopicListAPI.list_key_func ∧
    cacheKeyOf (PrivateTopicListAPI.decorators Method.GET) =
      some PrivateTopicListAPI.list_key_func ∧
    etagKeyOf (PrivateTopicDetailAPI.decorators Method.GET) =
      some PrivateTopicDetailAPI.obj_key_func ∧
    cacheKeyOf (PrivateTopicDetailAPI.decorators Method.GET) =
      some PrivateTopicDetailAPI.obj_key_func ∧
    (∀ env : KeyBit → String,
      (etagKeyOf (PrivateTopicListAPI.decorators Method.GET)).map (constructKey env) =
      (cacheKeyOf (PrivateTopicListAPI.decorators Method.GET)).map (constructKey env)) ∧
    (∀ env : KeyBit → String,
      (etagKeyOf (PrivateTopicDetailAPI.decorators Method.GET)).map (constructKey env) =
      (cacheKeyOf (PrivateTopicDetailAPI.decorators Method.GET)).map (constructKey env)) ∧
    PrivateTopicListAPI.decorators Method.POST = [] ∧
    PrivateTopicListAPI.decorators Method.PUT = [] ∧
    PrivateTopicListAPI.decorators Method.DELETE = [] ∧
    PrivateTopicListAPI.decorators Method.PATCH = [] ∧
    PrivateTopicListAPI.decorators Method.HEAD = [] ∧
    PrivateTopicListAPI.decorators Method.OPTIONS = [] ∧
    PrivateTopicDetailAPI.decorators Method.POST = [] ∧
    PrivateTopicDetailAPI.decorators Method.PUT = [] ∧
    PrivateTopicDetailAPI.decorators Method.DELETE = [] ∧
    PrivateTopicDetailAPI.decorators Method.PATCH = [] ∧
    PrivateTopicDetailAPI.decorators Method.HEAD = [] ∧
    PrivateTopicDetailAPI.decorators Method.OPTIONS = [] := by
  exact ⟨rfl, rfl, rfl, rfl, fun env => rfl, fun env => rfl, rfl, rfl, rfl, rfl,
    rfl, rfl, rfl, rfl, rfl, rfl, rfl, rfl⟩

/-- C10: the serializer class selection of both views over every HTTP
method: the list view answers PrivateTopicSerializer for GET and
PrivateTopicCreateSerializer for POST, the detail view answers
PrivateTopicSerializer for GET and PrivateTopicUpdateSerializer for PUT,
and every other method of either view — the list DELETE operation
included — gets none. -/
theorem serializer_class_table :
    PrivateTopicListAPI.get_serializer_class Method.GET =
      some Serializer.PrivateTopicSerializer ∧
    PrivateTopicListAPI.get_serializer_class Method.POST =
      some Serializer.PrivateTopicCreateSerializer ∧
    PrivateTopicDetailAPI.get_serializer_class Method.GET =
      some Serializer.PrivateTopicSerializer ∧
    PrivateTopicDetailAPI.get_serializer_class Method.PUT =
      some Serializer.PrivateTopicUpdateSerializer ∧
    PrivateTopicListAPI.get_serializer_class Method.DELETE = none ∧
    PrivateTopicListAPI.get_serializer_class Method.PUT = none ∧
    PrivateTopicListAPI.get_serializer_class Method.PATCH = none ∧
    PrivateTopicListAPI.get_serializer_class Method.HEAD = none ∧
    PrivateTopicListAPI.get_serializer_class Method.OPTIONS = none ∧
    PrivateTopicDetailAPI.get_serializer_class Method.POST = none ∧
    PrivateTopicDetailAPI.get_serializer_class Method.DELETE = none ∧
    PrivateTopicDetailAPI.get_serializer_class Method.PATCH = none ∧
    PrivateTopicDetailAPI.get_serializer_class Method.HEAD = none ∧
    PrivateTopicDetailAPI.get_serializer_class Method.OPTIONS = none := by
  decide

/-- Iterating perform_destroy over a worklist of topics keeps exactly the
rows of the table whose pk differs from every pk of the worklist. -/
theorem mem_foldl_perform_destroy (L : List PrivateTopic) (db : Database)
    (t : PrivateTopic) :
    t ∈ (L.foldl perform_destroy db).topics ↔
      t ∈ db.topics ∧ ∀ s ∈ L, t.pk ≠ s.pk := by
  induction L generalizing db with
  | nil => simp
  | cons x xs ih =>
    rw [List.foldl_cons, ih]
    simp only [perform_destroy, List.mem_filter, List.mem_cons, bne_iff_ne, ne_eq]
    constructor
    · rintro ⟨⟨h1, h2⟩, h3⟩
      refine ⟨h1, fun s hs => ?_⟩
      rcases hs with rfl | hs
      · exact h2
      · exact h3 s hs
    · rintro ⟨h1, h2⟩
      exact ⟨⟨h1, h2 x (Or.inl rfl)⟩, fun s hs => h2 s (Or.inr hs)⟩

/-- C8: every authenticated DELETE on the list endpoint answers 204 with
an empty body, whatever the pk list of the request — empty, naming no
existing topic, or naming only topics of other users — and the rows kept
are exactly those not in get_private_topics_selected of the requesting
user and that pk list; in particular a topic the requester does not
participate in is never destroyed, whether or not its pk was named. -/
theorem bulk_delete_destroys_exactly_selected (db : Database) (req : Request)
    (u : User) (hu : req.user = some u) (hm : req.method = Method.DELETE)
    (hnodup : (db.topics.map PrivateTopic.pk).Nodup) :
    (PrivateTopicListAPI.handle_delete db req).2 = ⟨204, []⟩ ∧
    (∀ t, t ∈ (PrivateTopicListAPI.handle_delete db req).1.topics ↔
      t ∈ db.topics ∧ t ∉ get_private_topics_selected db u.id req.dataPks) ∧
    (∀ t, t ∈ db.topics → isParticipantOf u.id t = false →
      t ∈ (PrivateTopicListAPI.handle_delete db req).1.topics) := by
  have hq : PrivateTopicListAPI.handle_delete db req =
      ((get_private_topics_selected db u.id req.dataPks).foldl perform_destroy db,
        ⟨204, []⟩) := by
    unfold PrivateTopicListAPI.handle_delete dispatch PrivateTopicListAPI.delete
      PrivateTopicListAPI.get_queryset
    simp [PrivateTopicListAPI.permission_classes, has_permission, hu, hm]
  have hmem : ∀ t, t ∈ (PrivateTopicListAPI.handle_delete db req).1.topics ↔
      t ∈ db.topics ∧ t ∉ get_private_topics_selected db u.id req.dataPks := by
    intro t
    rw [hq]
    rw [mem_foldl_perform_destroy]
    constructor
    · rintro ⟨h1, h2⟩
      refine ⟨h1, fun hsel => ?_⟩
      exact h2 t hsel rfl
    · rintro ⟨h1, h2⟩
      refine ⟨h1, fun s hs hpk => ?_⟩
      have hsdb : s ∈ db.topics := List.mem_of_mem_filter hs
      have : t = s := List.inj_on_of_nodup_map hnodup h1 hsdb hpk
      exact h2 (this ▸ hs)
  refine ⟨by rw [hq], hmem, fun t ht hnp => ?_⟩
  refine (hmem t).mpr ⟨ht, fun hsel => ?_⟩
  have : isParticipantOf u.id t = true :=
    ((List.mem_filter.mp hsel).2 |> Bool.and_elim_right)
  rw [hnp] at this
  exact Bool.false_ne_true this

/-- Witness for C8: on a table holding a topic of user 5 and a topic of
user 7, an authenticated DELETE of user 7 naming both pks answers 204
with an empty body. -/
theorem bulk_delete_destroys_exactly_selected_witness :
    (PrivateTopicListAPI.handle_delete ⟨[⟨1, 5, [], "a"⟩, ⟨2, 7, [], "b"⟩]⟩
        ⟨Method.DELETE, some ⟨7⟩, [1, 2]⟩).2 = ⟨204, []⟩ :=
  (bulk_delete_destroys_exactly_selected ⟨[⟨1, 5, [], "a"⟩, ⟨2, 7, [], "b"⟩]⟩
    ⟨Method.DELETE, some ⟨7⟩, [1, 2]⟩ ⟨7⟩ rfl rfl (by decide)).1

/-- C9: on the detail endpoint, for an authenticated request: when a
topic with the given pk exists but the requester does not participate in
it, get_object answers 403; when no topic carries the given pk it answers
404; and a 404 arises only when no topic with the given pk exists — so
the endpoint discloses the existence of topics the requester cannot
access. -/
theorem detail_403_vs_404 (db : Database) (req : Request) (u : User) (pk : Nat)
    (hu : req.user = some u)
    (hnodup : (db.topics.map PrivateTopic.pk).Nodup) :
    ((∃ t, t ∈ db.topics ∧ t.pk = pk ∧ isParticipantOf u.id t = false) →
      PrivateTopicDetailAPI.get_object db req pk = Except.error 403) ∧
    ((∀ t ∈ db.topics, t.pk ≠ pk) →
      PrivateTopicDetailAPI.get_object db req pk = Except.error 404) ∧
    (PrivateTopicDetailAPI.get_object db req pk = Except.error 404 →
      ∀ t ∈ db.topics, t.pk ≠ pk) := by
  refine ⟨?_, ?_, ?_⟩
  · rintro ⟨t, ht, htpk, hnp⟩
    rcases h : (PrivateTopicDetailAPI.queryset db).find? (fun s => s.pk == pk) with
      _ | s
    · have := List.find?_eq_none.mp h t ht
      simp [htpk] at this
    · have hspk : s.pk = pk := by
        have := List.find?_some h
        simpa using this
      have hsdb : s ∈ db.topics := List.mem_of_find?_eq_some h
      have hst : s = t :=
        List.inj_on_of_nodup_map hnodup hsdb ht (by rw [hspk, htpk])
      unfold PrivateTopicDetailAPI.get_object
      rw [h]
      have hall : PrivateTopicDetailAPI.permission_classes.all
          (fun p => has_object_permission p req s) = false := by
        simp [PrivateTopicDetailAPI.permission_classes, has_object_permission,
          hu, hst, hnp]
      simp [hall, hu]
  · intro hnone
    have h : (PrivateTopicDetailAPI.queryset db).find? (fun s => s.pk == pk) = none := by
      rw [List.find?_eq_none]
      intro s hs
      simpa using hnone s hs
    unfold PrivateTopicDetailAPI.get_object
    rw [h]
  · intro h404 t ht htpk
    rcases h : (PrivateTopicDetailAPI.queryset db).find? (fun s => s.pk == pk) with
      _ | s
    · exact (List.find?_eq_none.mp h t ht) (by simpa using htpk)
    · unfold PrivateTopicDetailAPI.get_object at h404
      rw [h] at h404
      rcases hc : PrivateTopicDetailAPI.permission_classes.all
          (fun p => has_object_permission p req s) with _ | _
      · simp [hc, hu] at h404
      · simp [hc] at h404

/-- Witness for C9: a topic of user 5 with pk 1 exists; user 2 asking for
pk 1 gets 403, and asking for pk 9 gets 404. -/
theorem detail_403_vs_404_witness :
    PrivateTopicDetailAPI.get_object ⟨[⟨1, 5, [], "t"⟩]⟩
      ⟨Method.GET, some ⟨2⟩, []⟩ 1 = Except.error 403 ∧
    PrivateTopicDetailAPI.get_object ⟨[⟨1, 5, [], "t"⟩]⟩
      ⟨Method.GET, some ⟨2⟩, []⟩ 9 = Except.error 404 :=
  ⟨(detail_403_vs_404 ⟨[⟨1, 5, [], "t"⟩]⟩ ⟨Method.GET, some ⟨2⟩, []⟩ ⟨2⟩ 1
      rfl (by decide)).1 ⟨⟨1, 5, [], "t"⟩, by decide, rfl, by decide⟩,
    (detail_403_vs_404 ⟨[⟨1, 5, [], "t"⟩]⟩ ⟨Method.GET, some ⟨2⟩, []⟩ ⟨2⟩ 9
      rfl (by decide)).2.1 (by decide)⟩

end ZdsMp
